import Mathlib

/-!
Verification of the rabitdb repository (src/lib.rs) against its
natural-language specification.

The library consists of a single function

  pub fn greet(name: &str) {
      println!("Hello, \x7b\x7d!", name);
  }

together with a test module that calls an undefined function `add` and a
test that panics on purpose.  We embed the Rust formatting machinery used
by `println!` (format-string parsing with positional arguments and brace
escapes, plus rendering) rather than hard-coding the produced text, so that
the stated properties are genuinely about that machinery applied to the
format string literal of `greet`.  Observable effects are modelled by an
explicit `World` state carrying the standard output and standard error
streams and a file store; `greet` threads this state and returns `none`
exactly when the format string would be rejected (a Rust compile error).
-/

/-- A parsed piece of a Rust format string: a literal fragment or a
positional argument to be interpolated. -/
inductive FmtPiece where
  | lit (s : String)
  | arg (i : Nat)
deriving DecidableEq, Repr

/-- Parser for Rust `format!`-style format strings, tracking the next
implicit positional-argument index.  `\x7b\x7d` consumes the next positional
argument; `\x7b\x7b` and `\x7d\x7d` are escapes for literal braces; any other
use of a brace is rejected (in Rust this is a compile-time error). -/
def parseFmt : List Char → Nat → Option (List FmtPiece)
  | [], _ => some []
  | '\x7b' :: '\x7b' :: rest, n => (parseFmt rest n).map (fun ps => FmtPiece.lit "\x7b" :: ps)
  | '\x7b' :: '\x7d' :: rest, n => (parseFmt rest (n+1)).map (fun ps => FmtPiece.arg n :: ps)
  | '\x7d' :: '\x7d' :: rest, n => (parseFmt rest n).map (fun ps => FmtPiece.lit "\x7d" :: ps)
  | '\x7b' :: _, _ => none
  | '\x7d' :: _, _ => none
  | c :: rest, n => (parseFmt rest n).map (fun ps => FmtPiece.lit (String.singleton c) :: ps)

/-- Render parsed format pieces against the supplied positional arguments.
A literal piece contributes its own text; an argument piece contributes the
corresponding argument verbatim (Rust `Display` for `&str`). -/
def renderPieces : List FmtPiece → List String → String
  | [], _ => ""
  | FmtPiece.lit s :: rest, args => s ++ renderPieces rest args
  | FmtPiece.arg i :: rest, args => args.getD i "" ++ renderPieces rest args

/-- The observable state an invocation could touch: the standard output and
standard error streams and a file store mapping paths to contents. -/
structure World where
  stdout : String
  stderr : String
  fs : List (String × String)
deriving DecidableEq, Repr

/-- Model of Rust `println!`: parse the format string, render it against the
arguments, and append the rendered text followed by a newline to the
standard output stream.  Nothing else in the world is touched. -/
def printlnFmt (fmt : String) (args : List String) (w : World) : Option (Unit × World) :=
  (parseFmt fmt.data 0).map fun ps =>
    ((), { w with stdout := w.stdout ++ renderPieces ps args ++ "\n" })

/-- The format string literal appearing in `greet` in src/lib.rs. -/
def greetFormatString : String := "Hello, \x7b\x7d!"

/-- `pub fn greet(name: &str)` from src/lib.rs: prints the greeting via
`println!` and returns unit. -/
def greet (name : String) (w : World) : Option (Unit × World) :=
  printlnFmt greetFormatString [name] w

/-- Function names defined anywhere in src/lib.rs (the top-level item and
the two items of the `tests` module). -/
def definedFnNames : List String := ["greet", "test_add", "test_add_should_panic"]

/-- Function names that the body of `test_add` invokes and that must resolve
for the test suite to build: `assert_eq!(add(2, 3), 5)` calls `add`. -/
def testAddCallees : List String := ["add"]

/-- The callees of `test_add` that resolve to no definition in the
repository. -/
def unresolvedTestAddCallees : List String :=
  testAddCallees.filter (fun n => !(definedFnNames.contains n))

/-- The test suite builds exactly when every callee resolves. -/
def testSuiteBuilds : Bool := unresolvedTestAddCallees.isEmpty

/-- Model of Rust `panic!` with a literal message: the invocation aborts,
carrying the message, and the world is not modified. -/
def abortWith (msg : String) (_w : World) : Except String (Unit × World) :=
  Except.error msg

/-- Body of the test `test_add_should_panic` in src/lib.rs:
`panic!("This test will fail on purpose")`. -/
def test_add_should_panic (w : World) : Except String (Unit × World) :=
  abortWith "This test will fail on purpose" w

/-- The format string of `greet` parses to seven literal characters, the
single positional argument, and a final literal. -/
theorem parseFmt_greet : parseFmt greetFormatString.data 0 =
    some [FmtPiece.lit "H", FmtPiece.lit "e", FmtPiece.lit "l", FmtPiece.lit "l",
      FmtPiece.lit "o", FmtPiece.lit ",", FmtPiece.lit " ", FmtPiece.arg 0,
      FmtPiece.lit "!"] := by decide

/-- Helper: running `greet` succeeds and appends exactly the greeting text to
the standard output, leaving everything else unchanged. -/
theorem greet_run (name : String) (w : World) :
    greet name w = some ((), { w with stdout := w.stdout ++ ("Hello, " ++ name ++ "!" ++ "\n") }) := by
  simp only [greet, printlnFmt, parseFmt_greet, Option.map_some', renderPieces,
    List.getD_cons_zero, Option.some.injEq, Prod.mk.injEq, World.mk.injEq, true_and, and_true]
  apply String.ext
  simp [String.data_append]

/-- Helper: the greeting text is injective in the name. -/
theorem greet_text_inj (n₁ n₂ : String)
    (h : "Hello, " ++ n₁ ++ "!" ++ "\n" = "Hello, " ++ n₂ ++ "!" ++ "\n") : n₁ = n₂ := by
  apply String.ext
  have h₁ := congrArg String.data h
  simp only [String.data_append, List.append_assoc] at h₁
  exact List.append_cancel_right (List.append_cancel_left h₁)

/-- C1: for every input string and every initial world, `greet` writes to
standard output exactly the concatenation "Hello, " ++ name ++ "!" followed
by a single newline and nothing else; in particular `greet "World"` from an
empty world outputs "Hello, World!\n". -/
theorem greet_output_exact (name : String) (w : World) :
    greet name w = some ((), { w with stdout := w.stdout ++ ("Hello, " ++ name ++ "!" ++ "\n") }) ∧
    greet "World" ⟨"", "", []⟩ = some ((), ⟨"Hello, World!\n", "", []⟩) :=
  ⟨greet_run name w, by decide⟩

/-- C2: invoking `greet` with the empty string writes exactly "Hello, !\n". -/
theorem greet_empty_input (w : World) :
    greet "" w = some ((), { w with stdout := w.stdout ++ "Hello, !\n" }) ∧
    greet "" ⟨"", "", []⟩ = some ((), ⟨"Hello, !\n", "", []⟩) := by
  refine ⟨?_, by decide⟩
  have h := greet_run "" w
  have e : ("Hello, " ++ "" ++ "!" ++ "\n" : String) = "Hello, !\n" := by decide
  rw [e] at h
  exact h

/-- C3: `greet` is deterministic and stateless: for every input there is a
single text, depending only on the input, that every invocation appends to
standard output, whatever the prior state of the world. -/
theorem greet_deterministic_stateless (name : String) :
    ∃ t : String, ∀ w : World, greet name w = some ((), { w with stdout := w.stdout ++ t }) :=
  ⟨"Hello, " ++ name ++ "!" ++ "\n", fun w => greet_run name w⟩

/-- C4: `greet` accepts every input and cannot fail: no invocation returns
the failure value. -/
theorem greet_never_fails (name : String) (w : World) :
    (greet name w).isSome = true := by
  rw [greet_run name w]; rfl

/-- C5: `greet` returns unit, and its only effect is the single write of the
greeting text to standard output: standard error and the file store are
untouched. -/
theorem greet_unit_and_frame (name : String) (w : World) :
    ∃ w' : World, greet name w = some ((), w') ∧
      w'.stderr = w.stderr ∧ w'.fs = w.fs ∧
      w'.stdout = w.stdout ++ ("Hello, " ++ name ++ "!" ++ "\n") :=
  ⟨_, greet_run name w, rfl, rfl, rfl⟩

/-- C6: `test_add` calls a function named `add` that is defined nowhere in
the repository, so the test suite fails to build. -/
theorem add_undefined_build_fails :
    "add" ∈ unresolvedTestAddCallees ∧ "add" ∉ definedFnNames ∧ testSuiteBuilds = false := by
  decide

/-- C7: `test_add_should_panic` panics on every execution with the message
"This test will fail on purpose", independent of the state of the world. -/
theorem test_add_should_panic_unconditional (w : World) :
    test_add_should_panic w = Except.error "This test will fail on purpose" := rfl

/-- C8: `greet` terminates on every input: each invocation completes with a
result, after a single write that extends standard output by exactly the
length of the greeting text. -/
theorem greet_terminates (name : String) (w : World) :
    ∃ w' : World, greet name w = some ((), w') ∧
      w'.stdout.length = w.stdout.length + ("Hello, " ++ name ++ "!" ++ "\n").length := by
  refine ⟨_, greet_run name w, ?_⟩
  simp [String.length_append]

/-- C9: the output of `greet` is injective in its input: distinct names
yield distinct results from the same initial world. -/
theorem greet_output_injective (n₁ n₂ : String) (w : World) (h : n₁ ≠ n₂) :
    greet n₁ w ≠ greet n₂ w := by
  intro heq
  rw [greet_run n₁ w, greet_run n₂ w] at heq
  simp only [Option.some.injEq, Prod.mk.injEq, World.mk.injEq, true_and, and_true] at heq
  have h₂ : ("Hello, " ++ n₁ ++ "!" ++ "\n" : String) = "Hello, " ++ n₂ ++ "!" ++ "\n" := by
    have h₃ := congrArg String.data heq
    simp only [String.data_append] at h₃
    apply String.ext
    simp only [String.data_append]
    exact List.append_cancel_left h₃
  exact h (greet_text_inj n₁ n₂ h₂)

/-- Witness for C9 at the concrete pair "World" and "". -/
theorem greet_output_injective_witness :
    ("World" : String) ≠ "" ∧ greet "World" ⟨"", "", []⟩ ≠ greet "" ⟨"", "", []⟩ :=
  ⟨by decide, greet_output_injective "World" "" ⟨"", "", []⟩ (by decide)⟩

/-- C10: the name is passed to the formatter as a data argument, never as
part of the format string: for every input the input text appears verbatim
as a contiguous segment of the written output, and an input consisting of
the format directive characters is printed literally rather than
interpreted. -/
theorem greet_no_format_interpolation (name : String) (w : World) :
    (∃ w' : World, greet name w = some ((), w') ∧
      w'.stdout.data = (w.stdout.data ++ "Hello, ".data) ++ name.data ++ ("!".data ++ "\n".data)) ∧
    greet "\x7b\x7d" ⟨"", "", []⟩ = some ((), ⟨"Hello, \x7b\x7d!\n", "", []⟩) := by
  refine ⟨⟨_, greet_run name w, ?_⟩, by decide⟩
  simp [String.data_append, List.append_assoc]
